import Mathlib

/-!
Shallow embedding of the instance migration protocol engine
(source/sink orchestrators, `newMigrationSource`, `migrationSourceWs.Do`,
`newMigrationSink`, `migrationSink.Do`).

External collaborators (random secret generation, the checkpoint-tool
lookup, channel dialing, the instance transfer callbacks, the outcome of
the control-channel ack read) are supplied as explicit environment
records; the orchestration logic itself is translated statement by
statement from the source.  Each `Do` routine additionally returns the
ordered trace of externally visible actions it performed (operation
marking, callback invocation, control sends, reads, dials, disconnects),
so that claims about what happens on each exit path are statements about
that trace.
-/

/-- A duplex byte-stream channel handle (a connected websocket); `Option Conn`
models a possibly-nil connection pointer. -/
abbrev Conn := Nat

/-- Instance type tags (`instancetype.Any` / `Container` / `VM`). -/
inductive InstanceType where
  | any
  | container
  | vm
deriving DecidableEq, Repr

/-- The slice of the instance interface the orchestrators consult:
whether it is running and its type. -/
structure Instance where
  isRunning : Bool
  typ : InstanceType
deriving DecidableEq, Repr

/-- A Go error value.  `msg` is the `Error()` text; `isWsCloseError` records
whether `errors.As(err, &wsCloseErr)` for `*websocket.CloseError` succeeds
anywhere in the wrap chain (a remote-closed-connection indication). -/
structure GoError where
  msg : String
  isWsCloseError : Bool
deriving DecidableEq, Repr

/-- Error wrapping, `fmt.Errorf("ctx: %w", e)`: prefixes the message and
preserves the wrapped error for `errors.As` matching. -/
def wrapErr (ctx : String) (e : GoError) : GoError :=
  { msg := ctx ++ ": " ++ e.msg, isWsCloseError := e.isWsCloseError }

/-- The control wire message (`migration.MigrationControl`): a success flag
and a human-readable message. -/
structure MigrationControl where
  success : Bool
  message : String
deriving DecidableEq, Repr

/-- Per-side channel state (`migrationFields`): the instance handle (nil for
the sink's `dest` side), the three channel secrets, the three channel
handles (nil until connected), and the liveness/scope flags. -/
structure migrationFields where
  inst : Option Instance := none
  controlSecret : String := ""
  fsSecret : String := ""
  criuSecret : String := ""
  controlConn : Option Conn := none
  fsConn : Option Conn := none
  criuConn : Option Conn := none
  live : Bool := false
  instanceOnly : Bool := false
  allowInconsistent : Bool := false
deriving DecidableEq, Repr

/-- The channel handles a side currently owns (its non-nil connections).
Modelled from the spec: `migrationFields.disconnect` (not in the excerpt)
closes exactly these owned channels. -/
def migrationFields.ownedConns (f : migrationFields) : List Conn :=
  f.controlConn.toList ++ f.fsConn.toList ++ f.criuConn.toList

/-- A migration source session: one per-side channel state plus the one-shot
`allConnected` completion signal (whose firing time is part of the `Do`
environment below). -/
structure migrationSourceWs extends migrationFields
deriving DecidableEq, Repr

/-- A migration sink session: `src` (pull mode) and `dest` (push mode)
per-side states plus the mode flags.  The dialer is part of the `Do`
environment. -/
structure migrationSink where
  src : migrationFields
  dest : migrationFields
  url : String
  push : Bool
  refresh : Bool
deriving DecidableEq, Repr

/-- Arguments to `newMigrationSink` (`MigrationSinkArgs`); `Secrets` is the
out-of-band channel-name-to-secret mapping. -/
structure MigrationSinkArgs where
  inst : Instance
  instanceOnly : Bool
  url : String
  push : Bool
  refresh : Bool
  live : Bool
  secrets : List (String × String)
deriving DecidableEq, Repr

instance {ε α : Type} [DecidableEq ε] [DecidableEq α] : DecidableEq (Except ε α)
  | .ok x, .ok y =>
    if h : x = y then isTrue (h ▸ rfl) else isFalse fun hc => h (Except.ok.inj hc)
  | .error x, .error y =>
    if h : x = y then isTrue (h ▸ rfl) else isFalse fun hc => h (Except.error.inj hc)
  | .ok _, .error _ => isFalse fun hc => Except.noConfusion hc
  | .error _, .ok _ => isFalse fun hc => Except.noConfusion hc

/-- Environment of `newMigrationSource`: the outcome of each of the (up to
three) `shared.RandomCryptoString()` calls, in call order, and whether
`exec.LookPath("criu")` finds the checkpoint tool. -/
structure SourceEnv where
  controlSecretGen : Except GoError String
  fsSecretGen : Except GoError String
  criuSecretGen : Except GoError String
  criuFound : Bool
deriving DecidableEq, Repr

/-- Modelled from the spec: `migration.ErrNoLiveMigrationSource` (declared
outside the excerpt), the distinct live-migration-unsupported error of the
source side. -/
def errNoLiveMigrationSource : GoError :=
  { msg := "no live migration support at source", isWsCloseError := false }

/-- Modelled from the spec: `migration.ErrNoLiveMigrationTarget` (declared
outside the excerpt), the distinct live-migration-unsupported error of the
target side. -/
def errNoLiveMigrationTarget : GoError :=
  { msg := "no live migration support at target", isWsCloseError := false }

/-- `newMigrationSource`: generates the control and filesystem secrets; if
`stateful` and the instance is running, marks the session live and, for a
container, requires the checkpoint tool (absence is
`errNoLiveMigrationSource`) and generates the live-state secret. -/
def newMigrationSource (inst : Instance) (stateful instanceOnly allowInconsistent : Bool)
    (env : SourceEnv) : Except GoError migrationSourceWs := do
  let controlSecret ← env.controlSecretGen
  let fsSecret ← env.fsSecretGen
  let base : migrationFields :=
    { inst := some inst, allowInconsistent := allowInconsistent,
      instanceOnly := instanceOnly, controlSecret := controlSecret,
      fsSecret := fsSecret }
  if stateful && inst.isRunning then
    if inst.typ = InstanceType.container then do
      if !env.criuFound then
        throw errNoLiveMigrationSource
      let criuSecret ← env.criuSecretGen
      pure ⟨{ base with live := true, criuSecret := criuSecret }⟩
    else
      pure ⟨{ base with live := true }⟩
  else
    pure ⟨base⟩

/-- Environment of `newMigrationSink`: outcomes of the destination-side
`RandomCryptoString()` calls (push mode, in call order) and the
`exec.LookPath("criu")` outcome. -/
structure SinkEnv where
  destControlSecretGen : Except GoError String
  destFsSecretGen : Except GoError String
  destCriuSecretGen : Except GoError String
  criuFound : Bool
deriving DecidableEq, Repr

/-- `newMigrationSink`: push mode generates `dest` secrets (live-state secret
only if live); pull mode requires the supplied control and filesystem
secrets (missing either is fatal), treats the live-state secret as
optional, and sets `src.live` when it is present or liveness was
requested; finally, for a container instance, a live session requires the
checkpoint tool. -/
def newMigrationSink (args : MigrationSinkArgs) (env : SinkEnv) :
    Except GoError migrationSink := do
  let base : migrationSink :=
    { src := { inst := some args.inst, instanceOnly := args.instanceOnly },
      dest := { instanceOnly := args.instanceOnly },
      url := args.url, push := args.push, refresh := args.refresh }
  let sink ←
    if args.push then do
      let cs ← env.destControlSecretGen
      let fsSec ← env.destFsSecretGen
      let dest0 :=
        { base.dest with controlSecret := cs, fsSecret := fsSec, live := args.live }
      if args.live then do
        let criuSec ← env.destCriuSecretGen
        pure { base with dest := { dest0 with criuSecret := criuSec } }
      else
        pure { base with dest := dest0 }
    else
      match args.secrets.lookup "control" with
      | none => throw { msg := "Missing control secret", isWsCloseError := false }
      | some cs =>
        match args.secrets.lookup "fs" with
        | none => throw { msg := "Missing fs secret", isWsCloseError := false }
        | some fsSec =>
          -- Go map lookup: a missing "criu" key yields the zero value "" and ok=false.
          let criuPair : String × Bool :=
            match args.secrets.lookup "criu" with
            | some v => (v, true)
            | none => ("", false)
          pure { base with src :=
            { base.src with
              controlSecret := cs,
              fsSecret := fsSec,
              criuSecret := criuPair.1,
              live := criuPair.2 || args.live } }
  if args.inst.typ = InstanceType.container then
    if sink.push && sink.dest.live && !env.criuFound then
      throw errNoLiveMigrationTarget
    else if sink.src.live && !env.criuFound then
      throw errNoLiveMigrationTarget
    else
      pure sink
  else
    pure sink

/-- Arguments shared by the transfer callbacks (`instance.MigrateArgs`).
The control send/receive closures are represented by the control
connection they are bound to (modelled from the spec: the
`migrationFields` send/recv methods, outside the excerpt, operate on the
side's control channel). -/
structure MigrateArgs where
  controlSendConn : Option Conn
  controlReceiveConn : Option Conn
  liveConn : Option Conn
  dataConn : Option Conn
  snapshots : Bool
  live : Bool
deriving DecidableEq, Repr

/-- `instance.MigrateSendArgs`. -/
structure MigrateSendArgs extends MigrateArgs where
  allowInconsistent : Bool
deriving DecidableEq, Repr

/-- `instance.MigrateReceiveArgs`; the operation lock is an opaque handle. -/
structure MigrateReceiveArgs extends MigrateArgs where
  instanceOperation : Nat
  refresh : Bool
deriving DecidableEq, Repr

/-- Externally visible actions of a `Do` routine, in execution order. -/
inductive Event where
  | setOperationEv (op : Nat)
  | migrateSendEv (args : MigrateSendArgs)
  | migrateReceiveEv (args : MigrateReceiveArgs)
  | sendControlEv (conn : Option Conn) (msg : MigrationControl)
  | setReadDeadlineEv (conn : Option Conn) (seconds : Nat)
  | readMessageEv (conn : Option Conn)
  | connectWithSecretEv (secret : String)
  | disconnectEv (closed : List Conn)
deriving DecidableEq, Repr

/-- The connection-wait timeout, `time.Second * 10`. -/
def waitTimeoutSeconds : Nat := 10

/-- The error-acknowledgment read deadline, `time.Now().Add(time.Second * 5)`. -/
def ackDeadlineSeconds : Nat := 5

/-- Outcome of the `select` between the completion signal (firing at
`fireAt` seconds, `none` if never) and `time.After` of `bound` seconds:
`true` when the signal wins. -/
def signalBeatsTimeout (fireAt : Option Nat) (bound : Nat) : Bool :=
  match fireAt with
  | none => false
  | some t => t < bound

/-- The timeout error, `Timed out waiting for migration connections`. -/
def timedOutWaitingErr : GoError :=
  { msg := "Timed out waiting for migration connections", isWsCloseError := false }

/-- Environment of `migrationSourceWs.Do`: when (if ever) the
`allConnected` signal fires, the transfer callback's result, the result
of sending the failure notice, and the outcome of the acknowledgment
read (which the code discards). -/
structure SourceDoEnv where
  allConnectedAt : Option Nat
  migrateSendResult : Option GoError
  sendResult : Option GoError
  readMessageOutcome : Option GoError
deriving DecidableEq, Repr

/-- Result of a `Do` routine: the returned error and the event trace. -/
structure DoResult where
  err : Option GoError
  trace : List Event
deriving DecidableEq, Repr

/-- `migrationSourceWs.Do`: waits (10 s bound) for all channels, then marks
the instance with the operation and invokes `MigrateSend`.  On a callback
error that is not a websocket close error, sends a success=false control
message with the error text; if that send succeeds, sets a 5 s read
deadline and reads (and discards) one control message.  The deferred
disconnect (registered after the wait) closes the owned channels on every
later exit path; the callback error is returned wrapped with
`Failed migration on source`. -/
def migrationSourceWs.Do (s : migrationSourceWs) (migrateOp : Nat)
    (env : SourceDoEnv) : DoResult :=
  if !(signalBeatsTimeout env.allConnectedAt waitTimeoutSeconds) then
    { err := some timedOutWaitingErr, trace := [] }
  else
    let args : MigrateSendArgs :=
      { controlSendConn := s.controlConn,
        controlReceiveConn := s.controlConn,
        liveConn := s.criuConn,
        dataConn := s.fsConn,
        snapshots := !s.instanceOnly,
        live := s.live,
        allowInconsistent := s.allowInconsistent }
    let pre := [Event.setOperationEv migrateOp, Event.migrateSendEv args]
    let closing := Event.disconnectEv s.tomigrationFields.ownedConns
    match env.migrateSendResult with
    | none => { err := none, trace := pre ++ [closing] }
    | some err =>
      if err.isWsCloseError then
        { err := some (wrapErr "Failed migration on source" err),
          trace := pre ++ [closing] }
      else
        let msg : MigrationControl := { success := false, message := err.msg }
        match env.sendResult with
        | some _ =>
          { err := some (wrapErr "Failed migration on source" err),
            trace := pre ++ [Event.sendControlEv s.controlConn msg, closing] }
        | none =>
          { err := some (wrapErr "Failed migration on source" err),
            trace := pre ++
              [Event.sendControlEv s.controlConn msg,
               Event.setReadDeadlineEv s.controlConn ackDeadlineSeconds,
               Event.readMessageEv s.controlConn,
               closing] }

/-- Whether the side's instance is a process-level container
(`instance.Type() == instancetype.Container`; the sink always carries an
instance on its `src` side). -/
def migrationFields.instIsContainer (f : migrationFields) : Bool :=
  match f.inst with
  | some i => i.typ = InstanceType.container
  | none => false

/-- Environment of `migrationSink.Do`: when (if ever) the push-mode
`allConnected` signal fires, the dialer (`connectWithSecret`, outside the
excerpt, modelled as an oracle from secret to connection or error), and
the receive callback's result. -/
structure SinkDoEnv where
  allConnectedAt : Option Nat
  dial : String → Except GoError Conn
  migrateReceiveResult : Option GoError

/-- Result of `migrationSink.Do`: the returned error, the event trace, and
the sink state at exit (pull-mode dials populate `src`'s connections). -/
structure SinkDoResult where
  err : Option GoError
  trace : List Event
  final : migrationSink
deriving DecidableEq, Repr

/-- The convergent tail of `migrationSink.Do` once channels are ready:
binds the receive callback arguments to `dest` in push mode and `src` in
pull mode, invokes `MigrateReceive`, wraps an error with
`Failed migration on target`, and closes the owning side's channels via
the deferred disconnect. -/
def migrationSink.receiveTail (c : migrationSink) (live : Bool) (instOp : Nat)
    (recvResult : Option GoError) (pre : List Event) : SinkDoResult :=
  let fields := if c.push then c.dest else c.src
  let args : MigrateReceiveArgs :=
    { controlSendConn := fields.controlConn,
      controlReceiveConn := fields.controlConn,
      liveConn := fields.criuConn,
      dataConn := fields.fsConn,
      snapshots := !c.dest.instanceOnly,
      live := live,
      instanceOperation := instOp,
      refresh := c.refresh }
  let closedSide := if c.push then c.dest else c.src
  let closing := Event.disconnectEv closedSide.ownedConns
  match recvResult with
  | none =>
    { err := none, trace := pre ++ [Event.migrateReceiveEv args, closing], final := c }
  | some e =>
    { err := some (wrapErr "Failed migration on target" e),
      trace := pre ++ [Event.migrateReceiveEv args, closing], final := c }

/-- `migrationSink.Do`: push mode waits (10 s bound) for the completion
signal, then receives on `dest`; pull mode dials control, filesystem and
(when live and the instance is a container) CRIU sockets in that order
with the corresponding secrets, each failure being fatal and wrapped with
the channel name, filesystem/CRIU dial failures additionally sending an
error notice on the already-open control channel, then receives on
`src`. -/
def migrationSink.Do (c : migrationSink) (instOp : Nat) (env : SinkDoEnv) :
    SinkDoResult :=
  let live := if c.push then c.dest.live else c.src.live
  if c.push then
    if !(signalBeatsTimeout env.allConnectedAt waitTimeoutSeconds) then
      { err := some timedOutWaitingErr, trace := [], final := c }
    else
      c.receiveTail live instOp env.migrateReceiveResult []
  else
    match env.dial c.src.controlSecret with
    | .error e =>
      { err := some (wrapErr "Failed connecting control sink socket" e),
        trace := [Event.connectWithSecretEv c.src.controlSecret], final := c }
    | .ok ctlConn =>
      let c1 : migrationSink := { c with src := { c.src with controlConn := some ctlConn } }
      match env.dial c.src.fsSecret with
      | .error e =>
        let werr := wrapErr "Failed connecting filesystem sink socket" e
        { err := some werr,
          trace := [Event.connectWithSecretEv c.src.controlSecret,
                    Event.connectWithSecretEv c.src.fsSecret,
                    Event.sendControlEv c1.src.controlConn
                      { success := false, message := werr.msg },
                    Event.disconnectEv c1.src.ownedConns],
          final := c1 }
      | .ok fsC =>
        let c2 : migrationSink := { c1 with src := { c1.src with fsConn := some fsC } }
        if c.src.live && c.src.instIsContainer then
          match env.dial c.src.criuSecret with
          | .error e =>
            let werr := wrapErr "Failed connecting CRIU sink socket" e
            { err := some werr,
              trace := [Event.connectWithSecretEv c.src.controlSecret,
                        Event.connectWithSecretEv c.src.fsSecret,
                        Event.connectWithSecretEv c.src.criuSecret,
                        Event.sendControlEv c2.src.controlConn
                          { success := false, message := werr.msg },
                        Event.disconnectEv c2.src.ownedConns],
              final := c2 }
          | .ok criuC =>
            let c3 : migrationSink := { c2 with src := { c2.src with criuConn := some criuC } }
            c3.receiveTail live instOp env.migrateReceiveResult
              [Event.connectWithSecretEv c.src.controlSecret,
               Event.connectWithSecretEv c.src.fsSecret,
               Event.connectWithSecretEv c.src.criuSecret]
        else
          c2.receiveTail live instOp env.migrateReceiveResult
            [Event.connectWithSecretEv c.src.controlSecret,
             Event.connectWithSecretEv c.src.fsSecret]

/-- The secrets used by the dial attempts of a trace, in order. -/
def dialSecrets (tr : List Event) : List String :=
  tr.filterMap fun e =>
    match e with
    | Event.connectWithSecretEv sec => some sec
    | _ => none

/-- Whether the trace closes channel `k` (some disconnect event covers it). -/
def connClosedIn (tr : List Event) (k : Conn) : Bool :=
  tr.any fun e =>
    match e with
    | Event.disconnectEv cs => cs.contains k
    | _ => false

/-- Whether every channel the side owns is closed by the trace. -/
def allOwnedClosed (f : migrationFields) (tr : List Event) : Bool :=
  f.ownedConns.all (connClosedIn tr)

/-- A running container instance. -/
def contRunning : Instance := { isRunning := true, typ := InstanceType.container }

/-- A stopped container instance. -/
def contStopped : Instance := { isRunning := false, typ := InstanceType.container }

/-- A connected non-live source session over a running container. -/
def sampleSourceWs : migrationSourceWs :=
  ⟨{ inst := some contRunning, controlSecret := "c", fsSecret := "f",
     controlConn := some 1, fsConn := some 2 }⟩

/-- Source environment: channels connect at once, transfer fails with a
non-close error, the failure notice send succeeds. -/
def srcErrEnv : SourceDoEnv :=
  { allConnectedAt := some 0,
    migrateSendResult := some { msg := "boom", isWsCloseError := false },
    sendResult := none, readMessageOutcome := none }

/-- Source environment: channels connect at once and the transfer succeeds. -/
def srcOkEnv : SourceDoEnv :=
  { allConnectedAt := some 0, migrateSendResult := none,
    sendResult := none, readMessageOutcome := none }

/-- Source environment whose completion signal never fires. -/
def srcTimeoutEnv : SourceDoEnv :=
  { allConnectedAt := none, migrateSendResult := none,
    sendResult := none, readMessageOutcome := none }

/-- A source session holding a connected control channel while the
completion signal has not fired (the filesystem channel is still
pending). -/
def srcPartialSession : migrationSourceWs :=
  ⟨{ inst := some contRunning, controlSecret := "c", fsSecret := "f",
     controlConn := some 1 }⟩

/-- A pull-mode sink session over a non-container instance (no CRIU dial). -/
def samplePullSink : migrationSink :=
  { src := { inst := some { isRunning := true, typ := InstanceType.vm },
             controlSecret := "sc", fsSecret := "sf", criuSecret := "scr" },
    dest := {},
    url := "u", push := false, refresh := true }

/-- A push-mode sink session with connected destination channels. -/
def samplePushSink : migrationSink :=
  { src := { inst := some contRunning },
    dest := { controlSecret := "dc", fsSecret := "df", criuSecret := "dcr",
              controlConn := some 3, fsConn := some 4, criuConn := some 5,
              live := true },
    url := "u", push := true, refresh := false }

/-- Sink environment: push signal fires at once, receive succeeds. -/
def sinkPushEnv : SinkDoEnv :=
  { allConnectedAt := some 0,
    dial := fun _ => Except.error { msg := "unused", isWsCloseError := false },
    migrateReceiveResult := none }

/-- Sink environment: push signal never fires. -/
def sinkTimeoutEnv : SinkDoEnv :=
  { allConnectedAt := none,
    dial := fun _ => Except.error { msg := "unused", isWsCloseError := false },
    migrateReceiveResult := none }

/-- Sink environment: every dial succeeds, with a distinct connection per
secret of `samplePullSink`; receive succeeds. -/
def sinkPullOkEnv : SinkDoEnv :=
  { allConnectedAt := none,
    dial := fun sec =>
      if sec = "sc" then Except.ok 7
      else if sec = "sf" then Except.ok 8
      else Except.ok 9,
    migrateReceiveResult := none }

/-- Sink environment: the control dial succeeds and the filesystem dial is
refused. -/
def sinkPullFsFailEnv : SinkDoEnv :=
  { allConnectedAt := none,
    dial := fun sec =>
      if sec = "sc" then Except.ok 7
      else Except.error { msg := "refused", isWsCloseError := false },
    migrateReceiveResult := none }

/-- Push-mode live sink construction arguments over a running container. -/
def pushLiveArgs : MigrationSinkArgs :=
  { inst := contRunning, instanceOnly := false, url := "u", push := true,
    refresh := false, live := true, secrets := [] }

/-- Pull-mode sink construction arguments over a virtual machine, with
control and filesystem secrets supplied and no live-state secret. -/
def pullVmArgs : MigrationSinkArgs :=
  { inst := { isRunning := true, typ := InstanceType.vm }, instanceOnly := false,
    url := "u", push := false, refresh := false, live := false,
    secrets := [("control", "a"), ("fs", "b")] }

/-- A sink construction environment: generation succeeds, CRIU absent. -/
def sinkEnvNoCriu : SinkEnv :=
  { destControlSecretGen := Except.ok "dc", destFsSecretGen := Except.ok "df",
    destCriuSecretGen := Except.ok "dcr", criuFound := false }

/-- A source construction environment: generation succeeds, CRIU absent. -/
def srcEnvNoCriu : SourceEnv :=
  { controlSecretGen := Except.ok "c", fsSecretGen := Except.ok "f",
    criuSecretGen := Except.ok "r", criuFound := false }

theorem connClosedIn_of_mem {tr : List Event} {cs : List Conn} {k : Conn}
    (hmem : Event.disconnectEv cs ∈ tr) (hk : k ∈ cs) : connClosedIn tr k = true := by
  simp only [connClosedIn, List.any_eq_true]
  exact ⟨Event.disconnectEv cs, hmem, by simp [hk]⟩

theorem allOwnedClosed_of_disconnect {f : migrationFields} {tr : List Event}
    (hmem : Event.disconnectEv f.ownedConns ∈ tr) : allOwnedClosed f tr = true := by
  simp only [allOwnedClosed, List.all_eq_true]
  intro k hk
  exact connClosedIn_of_mem hmem hk

/-- C4: if the all-connected completion signal never fires, both the source
`Do` and the push-mode sink `Do` return the distinct timeout error after
the 10-second bound with an empty action trace: the transfer callback is
never invoked and the instance is never marked with the operation. -/
theorem do_timeout_no_transfer
    (s : migrationSourceWs) (migrateOp : Nat) (env : SourceDoEnv)
    (c : migrationSink) (instOp : Nat) (env2 : SinkDoEnv)
    (hs : env.allConnectedAt = none) (hc : env2.allConnectedAt = none)
    (hpush : c.push = true) :
    s.Do migrateOp env = { err := some timedOutWaitingErr, trace := [] } ∧
    (∀ a, Event.migrateSendEv a ∉ (s.Do migrateOp env).trace) ∧
    (∀ op, Event.setOperationEv op ∉ (s.Do migrateOp env).trace) ∧
    c.Do instOp env2 = { err := some timedOutWaitingErr, trace := [], final := c } ∧
    (∀ a, Event.migrateReceiveEv a ∉ (c.Do instOp env2).trace) := by
  have h1 : s.Do migrateOp env = { err := some timedOutWaitingErr, trace := [] } := by
    simp [migrationSourceWs.Do, signalBeatsTimeout, hs]
  have h2 : c.Do instOp env2 = { err := some timedOutWaitingErr, trace := [], final := c } := by
    simp [migrationSink.Do, signalBeatsTimeout, hc, hpush]
  refine ⟨h1, ?_, ?_, h2, ?_⟩ <;> simp [h1, h2]

theorem do_timeout_no_transfer_witness :
    srcPartialSession.Do 0 srcTimeoutEnv = { err := some timedOutWaitingErr, trace := [] } ∧
    (∀ a, Event.migrateSendEv a ∉ (srcPartialSession.Do 0 srcTimeoutEnv).trace) ∧
    (∀ op, Event.setOperationEv op ∉ (srcPartialSession.Do 0 srcTimeoutEnv).trace) ∧
    samplePushSink.Do 0 sinkTimeoutEnv =
      { err := some timedOutWaitingErr, trace := [], final := samplePushSink } ∧
    (∀ a, Event.migrateReceiveEv a ∉ (samplePushSink.Do 0 sinkTimeoutEnv).trace) :=
  do_timeout_no_transfer srcPartialSession 0 srcTimeoutEnv samplePushSink 0 sinkTimeoutEnv
    rfl rfl rfl

/-- C8: a source session with `live=false` and `instanceOnly=false` whose
channels all connect marks the instance with the migration operation,
invokes the transfer callback exactly once with `Snapshots=true` and
`Live=false`, and returns nil when the callback returns nil (the deferred
disconnect then closes the owned channels). -/
theorem source_success_roundtrip
    (s : migrationSourceWs) (migrateOp : Nat) (env : SourceDoEnv)
    (hlive : s.live = false) (hio : s.instanceOnly = false)
    (hfired : signalBeatsTimeout env.allConnectedAt waitTimeoutSeconds = true)
    (hsend : env.migrateSendResult = none) :
    s.Do migrateOp env =
      { err := none,
        trace := [Event.setOperationEv migrateOp,
                  Event.migrateSendEv
                    { controlSendConn := s.controlConn,
                      controlReceiveConn := s.controlConn,
                      liveConn := s.criuConn,
                      dataConn := s.fsConn,
                      snapshots := true,
                      live := false,
                      allowInconsistent := s.allowInconsistent },
                  Event.disconnectEv s.tomigrationFields.ownedConns] } := by
  simp [migrationSourceWs.Do, hfired, hsend, hlive, hio]

theorem source_success_roundtrip_witness :
    sampleSourceWs.Do 4 srcOkEnv =
      { err := none,
        trace := [Event.setOperationEv 4,
                  Event.migrateSendEv
                    { controlSendConn := sampleSourceWs.controlConn,
                      controlReceiveConn := sampleSourceWs.controlConn,
                      liveConn := sampleSourceWs.criuConn,
                      dataConn := sampleSourceWs.fsConn,
                      snapshots := true,
                      live := false,
                      allowInconsistent := sampleSourceWs.allowInconsistent },
                  Event.disconnectEv sampleSourceWs.tomigrationFields.ownedConns] } :=
  source_success_roundtrip sampleSourceWs 4 srcOkEnv rfl rfl (by decide) rfl

/-- C1: when the transfer callback fails with an error that is not a
websocket close error (the remote-closed-connection indication), the
source sends a control message with `success=false` and the error text on
the control channel; when the error is a close error, no control
notification is attempted. -/
theorem source_failure_notification
    (s : migrationSourceWs) (migrateOp : Nat) (env : SourceDoEnv) (err : GoError)
    (hfired : signalBeatsTimeout env.allConnectedAt waitTimeoutSeconds = true)
    (herr : env.migrateSendResult = some err) :
    (err.isWsCloseError = false →
      Event.sendControlEv s.controlConn { success := false, message := err.msg }
        ∈ (s.Do migrateOp env).trace) ∧
    (err.isWsCloseError = true →
      ∀ conn msg, Event.sendControlEv conn msg ∉ (s.Do migrateOp env).trace) := by
  constructor
  · intro hws
    cases hsend : env.sendResult <;>
      simp [migrationSourceWs.Do, hfired, herr, hws, hsend]
  · intro hws conn msg
    simp [migrationSourceWs.Do, hfired, herr, hws]

theorem source_failure_notification_witness :
    (({ msg := "boom", isWsCloseError := false } : GoError).isWsCloseError = false →
      Event.sendControlEv sampleSourceWs.controlConn
          { success := false, message := "boom" }
        ∈ (sampleSourceWs.Do 0 srcErrEnv).trace) ∧
    (({ msg := "boom", isWsCloseError := false } : GoError).isWsCloseError = true →
      ∀ conn msg, Event.sendControlEv conn msg ∉ (sampleSourceWs.Do 0 srcErrEnv).trace) :=
  source_failure_notification sampleSourceWs 0 srcErrEnv
    { msg := "boom", isWsCloseError := false } (by decide) rfl

/-- C2: when the failure notice is sent successfully, the source sets a
5-second read deadline on the control channel, performs exactly one
(discarded) read, and still returns the transfer error wrapped with the
`Failed migration on source` context; the outcome of the acknowledgment
read never changes the result. -/
theorem source_ack_wait_preserves_error
    (s : migrationSourceWs) (migrateOp : Nat) (env : SourceDoEnv) (err : GoError)
    (hfired : signalBeatsTimeout env.allConnectedAt waitTimeoutSeconds = true)
    (herr : env.migrateSendResult = some err)
    (hws : err.isWsCloseError = false)
    (hsent : env.sendResult = none) :
    (s.Do migrateOp env).err = some (wrapErr "Failed migration on source" err) ∧
    (∃ a, (s.Do migrateOp env).trace =
      [Event.setOperationEv migrateOp,
       Event.migrateSendEv a,
       Event.sendControlEv s.controlConn { success := false, message := err.msg },
       Event.setReadDeadlineEv s.controlConn ackDeadlineSeconds,
       Event.readMessageEv s.controlConn,
       Event.disconnectEv s.tomigrationFields.ownedConns]) ∧
    (∀ r, s.Do migrateOp { env with readMessageOutcome := r } = s.Do migrateOp env) := by
  refine ⟨?_, ?_, ?_⟩
  · simp [migrationSourceWs.Do, hfired, herr, hws, hsent]
  · refine ⟨{ controlSendConn := s.controlConn, controlReceiveConn := s.controlConn,
              liveConn := s.criuConn, dataConn := s.fsConn,
              snapshots := !s.instanceOnly, live := s.live,
              allowInconsistent := s.allowInconsistent }, ?_⟩
    simp [migrationSourceWs.Do, hfired, herr, hws, hsent]
  · intro r
    cases env
    rfl

theorem source_ack_wait_preserves_error_witness :
    (sampleSourceWs.Do 0 srcErrEnv).err =
      some (wrapErr "Failed migration on source" { msg := "boom", isWsCloseError := false }) ∧
    (∃ a, (sampleSourceWs.Do 0 srcErrEnv).trace =
      [Event.setOperationEv 0,
       Event.migrateSendEv a,
       Event.sendControlEv sampleSourceWs.controlConn { success := false, message := "boom" },
       Event.setReadDeadlineEv sampleSourceWs.controlConn ackDeadlineSeconds,
       Event.readMessageEv sampleSourceWs.controlConn,
       Event.disconnectEv sampleSourceWs.tomigrationFields.ownedConns]) ∧
    (∀ r, sampleSourceWs.Do 0 { srcErrEnv with readMessageOutcome := r } =
      sampleSourceWs.Do 0 srcErrEnv) :=
  source_ack_wait_preserves_error sampleSourceWs 0 srcErrEnv
    { msg := "boom", isWsCloseError := false } (by decide) rfl rfl rfl

/-- C3: a pull-mode sink dials the endpoints sequentially with the control
secret, then the filesystem secret, then (only when live and the instance
is a container) the live-state secret; each dial failure is immediately
fatal and wrapped with the failing channel's name; a filesystem or CRIU
dial failure sends a success=false control notification on the already
open control channel before returning, while a control dial failure
returns directly with no notification. -/
theorem sink_pull_dial_order_and_failures
    (c : migrationSink) (instOp : Nat) (env : SinkDoEnv)
    (hpull : c.push = false) :
    (∀ e, env.dial c.src.controlSecret = Except.error e →
      c.Do instOp env =
        { err := some (wrapErr "Failed connecting control sink socket" e),
          trace := [Event.connectWithSecretEv c.src.controlSecret],
          final := c }) ∧
    (∀ k e, env.dial c.src.controlSecret = Except.ok k →
      env.dial c.src.fsSecret = Except.error e →
      c.Do instOp env =
        { err := some (wrapErr "Failed connecting filesystem sink socket" e),
          trace := [Event.connectWithSecretEv c.src.controlSecret,
                    Event.connectWithSecretEv c.src.fsSecret,
                    Event.sendControlEv (some k)
                      { success := false,
                        message := (wrapErr "Failed connecting filesystem sink socket" e).msg },
                    Event.disconnectEv
                      ({ c.src with controlConn := some k } : migrationFields).ownedConns],
          final := { c with src := { c.src with controlConn := some k } } }) ∧
    (∀ k m e, env.dial c.src.controlSecret = Except.ok k →
      env.dial c.src.fsSecret = Except.ok m →
      (c.src.live && c.src.instIsContainer) = true →
      env.dial c.src.criuSecret = Except.error e →
      c.Do instOp env =
        { err := some (wrapErr "Failed connecting CRIU sink socket" e),
          trace := [Event.connectWithSecretEv c.src.controlSecret,
                    Event.connectWithSecretEv c.src.fsSecret,
                    Event.connectWithSecretEv c.src.criuSecret,
                    Event.sendControlEv (some k)
                      { success := false,
                        message := (wrapErr "Failed connecting CRIU sink socket" e).msg },
                    Event.disconnectEv
                      ({ c.src with controlConn := some k, fsConn := some m }
                        : migrationFields).ownedConns],
          final := { c with src :=
            { c.src with controlConn := some k, fsConn := some m } } }) ∧
    (∀ k m, env.dial c.src.controlSecret = Except.ok k →
      env.dial c.src.fsSecret = Except.ok m →
      (c.src.live && c.src.instIsContainer) = true →
      dialSecrets (c.Do instOp env).trace =
        [c.src.controlSecret, c.src.fsSecret, c.src.criuSecret]) ∧
    (∀ k m, env.dial c.src.controlSecret = Except.ok k →
      env.dial c.src.fsSecret = Except.ok m →
      (c.src.live && c.src.instIsContainer) = false →
      dialSecrets (c.Do instOp env).trace = [c.src.controlSecret, c.src.fsSecret]) := by
  refine ⟨?_, ?_, ?_, ?_, ?_⟩
  · intro e he
    simp [migrationSink.Do, hpull, he]
  · intro k e hk he
    simp [migrationSink.Do, hpull, hk, he]
  · intro k m e hk hm hlc he
    simp [migrationSink.Do, hpull, hk, hm, hlc, he]
  · intro k m hk hm hlc
    cases hcr : env.dial c.src.criuSecret <;>
      cases hrecv : env.migrateReceiveResult <;>
        simp [migrationSink.Do, migrationSink.receiveTail, hpull, hk, hm, hlc, hcr, hrecv,
          dialSecrets]
  · intro k m hk hm hlc
    cases hrecv : env.migrateReceiveResult <;>
      simp [migrationSink.Do, migrationSink.receiveTail, hpull, hk, hm, hlc, hrecv,
        dialSecrets]

theorem sink_pull_dial_order_and_failures_witness :
    samplePullSink.Do 0 sinkPullFsFailEnv =
      { err := some (wrapErr "Failed connecting filesystem sink socket"
                  { msg := "refused", isWsCloseError := false }),
        trace := [Event.connectWithSecretEv samplePullSink.src.controlSecret,
                  Event.connectWithSecretEv samplePullSink.src.fsSecret,
                  Event.sendControlEv (some 7)
                    { success := false,
                      message := (wrapErr "Failed connecting filesystem sink socket"
                        { msg := "refused", isWsCloseError := false }).msg },
                  Event.disconnectEv
                    ({ samplePullSink.src with controlConn := some 7 }
                      : migrationFields).ownedConns],
        final := { samplePullSink with src :=
          { samplePullSink.src with controlConn := some 7 } } } :=
  (sink_pull_dial_order_and_failures samplePullSink 0 sinkPullFsFailEnv rfl).2.1 7
    { msg := "refused", isWsCloseError := false } (by decide) (by decide)

/-- C9: once channels are ready, the sink invokes the receive callback with
control send/receive, live-state channel and filesystem channel all bound
to the `dest` side in push mode and to the `src` side (as populated by
the dials) in pull mode, with the liveness flag taken from `dest` in push
mode and from `src` in pull mode, and with the operation lock and the
refresh flag passed through unchanged. -/
theorem sink_receive_callback_binding
    (c : migrationSink) (instOp : Nat) (env : SinkDoEnv) :
    (c.push = true →
      signalBeatsTimeout env.allConnectedAt waitTimeoutSeconds = true →
      Event.migrateReceiveEv
          { controlSendConn := c.dest.controlConn,
            controlReceiveConn := c.dest.controlConn,
            liveConn := c.dest.criuConn,
            dataConn := c.dest.fsConn,
            snapshots := !c.dest.instanceOnly,
            live := c.dest.live,
            instanceOperation := instOp,
            refresh := c.refresh }
        ∈ (c.Do instOp env).trace) ∧
    (c.push = false →
      ∀ k m, env.dial c.src.controlSecret = Except.ok k →
        env.dial c.src.fsSecret = Except.ok m →
        ((c.src.live && c.src.instIsContainer) = false →
          Event.migrateReceiveEv
              { controlSendConn := some k,
                controlReceiveConn := some k,
                liveConn := c.src.criuConn,
                dataConn := some m,
                snapshots := !c.dest.instanceOnly,
                live := c.src.live,
                instanceOperation := instOp,
                refresh := c.refresh }
            ∈ (c.Do instOp env).trace) ∧
        (∀ n, (c.src.live && c.src.instIsContainer) = true →
          env.dial c.src.criuSecret = Except.ok n →
          Event.migrateReceiveEv
              { controlSendConn := some k,
                controlReceiveConn := some k,
                liveConn := some n,
                dataConn := some m,
                snapshots := !c.dest.instanceOnly,
                live := c.src.live,
                instanceOperation := instOp,
                refresh := c.refresh }
            ∈ (c.Do instOp env).trace)) := by
  constructor
  · intro hpush hfired
    cases hrecv : env.migrateReceiveResult <;>
      simp [migrationSink.Do, migrationSink.receiveTail, hpush, hfired, hrecv]
  · intro hpull k m hk hm
    constructor
    · intro hlc
      cases hrecv : env.migrateReceiveResult <;>
        simp [migrationSink.Do, migrationSink.receiveTail, hpull, hk, hm, hlc, hrecv]
    · intro n hlc hn
      cases hrecv : env.migrateReceiveResult <;>
        simp [migrationSink.Do, migrationSink.receiveTail, hpull, hk, hm, hlc, hn, hrecv]

theorem sink_receive_callback_binding_witness :
    Event.migrateReceiveEv
        { controlSendConn := some 7,
          controlReceiveConn := some 7,
          liveConn := samplePullSink.src.criuConn,
          dataConn := some 8,
          snapshots := !samplePullSink.dest.instanceOnly,
          live := samplePullSink.src.live,
          instanceOperation := 2,
          refresh := samplePullSink.refresh }
      ∈ (samplePullSink.Do 2 sinkPullOkEnv).trace :=
  (((sink_receive_callback_binding samplePullSink 2 sinkPullOkEnv).2 rfl 7 8
    (by decide) (by decide)).1 (by decide))

theorem source_timeout_leaves_channel_open :
    (srcPartialSession.Do 0 srcTimeoutEnv).err = some timedOutWaitingErr ∧
    srcPartialSession.tomigrationFields.ownedConns = [1] ∧
    allOwnedClosed srcPartialSession.tomigrationFields
      (srcPartialSession.Do 0 srcTimeoutEnv).trace = false := by
  decide

/-- C5 (amended): once the connection phase is over — the source or
push-mode wait succeeded, or the pull-mode control dial succeeded — every
exit path of `Do` closes all owned channels of the session's channel
state via the deferred disconnect.  (On the timeout exit paths, and on a
pull-mode control-dial failure, `Do` returns before the deferred
disconnect is registered and closes nothing.) -/
theorem channels_closed_after_connection_phase
    (s : migrationSourceWs) (migrateOp : Nat) (env : SourceDoEnv)
    (c : migrationSink) (instOp : Nat) (env2 : SinkDoEnv)
    (hfired : signalBeatsTimeout env.allConnectedAt waitTimeoutSeconds = true) :
    allOwnedClosed s.tomigrationFields (s.Do migrateOp env).trace = true ∧
    (c.push = true → signalBeatsTimeout env2.allConnectedAt waitTimeoutSeconds = true →
      allOwnedClosed (c.Do instOp env2).final.dest (c.Do instOp env2).trace = true) ∧
    (c.push = false → ∀ k, env2.dial c.src.controlSecret = Except.ok k →
      allOwnedClosed (c.Do instOp env2).final.src (c.Do instOp env2).trace = true) := by
  refine ⟨?_, ?_, ?_⟩
  · apply allOwnedClosed_of_disconnect
    cases hsr : env.migrateSendResult with
    | none => simp [migrationSourceWs.Do, hfired, hsr]
    | some err =>
      cases hws : err.isWsCloseError <;> cases hsend : env.sendResult <;>
        simp [migrationSourceWs.Do, hfired, hsr, hws, hsend]
  · intro hpush hfired2
    cases hrecv : env2.migrateReceiveResult <;>
      · apply allOwnedClosed_of_disconnect
        simp [migrationSink.Do, migrationSink.receiveTail, hpush, hfired2, hrecv]
  · intro hpull k hk
    cases hfs : env2.dial c.src.fsSecret with
    | error e =>
      apply allOwnedClosed_of_disconnect
      simp [migrationSink.Do, hpull, hk, hfs]
    | ok m =>
      cases hlc : (c.src.live && c.src.instIsContainer) with
      | false =>
        cases hrecv : env2.migrateReceiveResult <;>
          · apply allOwnedClosed_of_disconnect
            simp [migrationSink.Do, migrationSink.receiveTail, hpull, hk, hfs, hlc, hrecv]
      | true =>
        cases hcr : env2.dial c.src.criuSecret with
        | error e =>
          apply allOwnedClosed_of_disconnect
          simp [migrationSink.Do, hpull, hk, hfs, hlc, hcr]
        | ok n =>
          cases hrecv : env2.migrateReceiveResult <;>
            · apply allOwnedClosed_of_disconnect
              simp [migrationSink.Do, migrationSink.receiveTail, hpull, hk, hfs, hlc,
                hcr, hrecv]

theorem channels_closed_after_connection_phase_witness :
    allOwnedClosed sampleSourceWs.tomigrationFields
      (sampleSourceWs.Do 0 srcErrEnv).trace = true ∧
    (samplePullSink.push = true →
      signalBeatsTimeout sinkPullOkEnv.allConnectedAt waitTimeoutSeconds = true →
      allOwnedClosed (samplePullSink.Do 0 sinkPullOkEnv).final.dest
        (samplePullSink.Do 0 sinkPullOkEnv).trace = true) ∧
    (samplePullSink.push = false →
      ∀ k, sinkPullOkEnv.dial samplePullSink.src.controlSecret = Except.ok k →
      allOwnedClosed (samplePullSink.Do 0 sinkPullOkEnv).final.src
        (samplePullSink.Do 0 sinkPullOkEnv).trace = true) :=
  channels_closed_after_connection_phase sampleSourceWs 0 srcErrEnv
    samplePullSink 0 sinkPullOkEnv (by decide)

/-- C6: requesting liveness for a (running) container instance while the
checkpoint tool is absent makes construction fail — before any channel
exists, since no session is returned at all — with the distinct
live-migration-unsupported error of the corresponding side:
`errNoLiveMigrationSource` for the source constructor and
`errNoLiveMigrationTarget` for the sink constructor (push and pull
alike). -/
theorem construction_live_container_requires_criu
    (inst1 : Instance) (io ai : Bool) (env : SourceEnv) (cs fsx : String)
    (args : MigrationSinkArgs) (senv : SinkEnv) (dcs dfs : String)
    (htyp : inst1.typ = InstanceType.container) (hrun : inst1.isRunning = true)
    (hcs : env.controlSecretGen = Except.ok cs) (hfs : env.fsSecretGen = Except.ok fsx)
    (hcriu : env.criuFound = false)
    (hatyp : args.inst.typ = InstanceType.container)
    (hdcs : senv.destControlSecretGen = Except.ok dcs)
    (hdfs : senv.destFsSecretGen = Except.ok dfs)
    (hscriu : senv.criuFound = false) :
    newMigrationSource inst1 true io ai env = Except.error errNoLiveMigrationSource ∧
    (args.push = true → args.live = true →
      ∀ dcr, senv.destCriuSecretGen = Except.ok dcr →
      newMigrationSink args senv = Except.error errNoLiveMigrationTarget) ∧
    (args.push = false →
      ∀ s1 s2, args.secrets.lookup "control" = some s1 →
        args.secrets.lookup "fs" = some s2 →
        ((args.secrets.lookup "criu").isSome || args.live) = true →
        newMigrationSink args senv = Except.error errNoLiveMigrationTarget) := by
  refine ⟨?_, ?_, ?_⟩
  · simp [newMigrationSource, hcs, hfs, htyp, hrun, hcriu, Bind.bind, Except.bind]
  · intro hpush hlive dcr hdcr
    simp [newMigrationSink, hpush, hlive, hatyp, hdcs, hdfs, hdcr, hscriu,
      Bind.bind, Except.bind, Pure.pure, Except.pure, throw, throwThe,
      MonadExceptOf.throw]
  · intro hpush s1 s2 hctl hfsx hliv
    cases hcr : args.secrets.lookup "criu" with
    | none =>
      have hlv : args.live = true := by
        simpa [hcr] using hliv
      simp [newMigrationSink, hpush, hatyp, hctl, hfsx, hcr, hlv, hscriu,
        Bind.bind, Except.bind, Pure.pure, Except.pure, throw, throwThe,
      MonadExceptOf.throw]
    | some v =>
      simp [newMigrationSink, hpush, hatyp, hctl, hfsx, hcr, hscriu,
        Bind.bind, Except.bind, Pure.pure, Except.pure, throw, throwThe,
      MonadExceptOf.throw]

theorem construction_live_container_requires_criu_witness :
    newMigrationSource contRunning true false false srcEnvNoCriu =
      Except.error errNoLiveMigrationSource ∧
    (pushLiveArgs.push = true → pushLiveArgs.live = true →
      ∀ dcr, sinkEnvNoCriu.destCriuSecretGen = Except.ok dcr →
      newMigrationSink pushLiveArgs sinkEnvNoCriu =
        Except.error errNoLiveMigrationTarget) ∧
    (pushLiveArgs.push = false →
      ∀ s1 s2, pushLiveArgs.secrets.lookup "control" = some s1 →
        pushLiveArgs.secrets.lookup "fs" = some s2 →
        ((pushLiveArgs.secrets.lookup "criu").isSome || pushLiveArgs.live) = true →
        newMigrationSink pushLiveArgs sinkEnvNoCriu =
          Except.error errNoLiveMigrationTarget) :=
  construction_live_container_requires_criu contRunning false false srcEnvNoCriu "c" "f"
    pushLiveArgs sinkEnvNoCriu "dc" "df" rfl rfl rfl rfl rfl rfl rfl rfl rfl

/-- C7: pull-mode sink construction fails with a distinct configuration
error (and returns no session) when the control or the filesystem secret
is missing from the supplied mapping; the live-state secret is optional,
and on success the session's liveness flag is the presence of the
live-state secret or-ed with the explicit liveness request. -/
theorem sink_pull_secret_requirements
    (args : MigrationSinkArgs) (env : SinkEnv)
    (hpull : args.push = false) :
    (args.secrets.lookup "control" = none →
      newMigrationSink args env =
        Except.error { msg := "Missing control secret", isWsCloseError := false }) ∧
    (∀ s1, args.secrets.lookup "control" = some s1 →
      args.secrets.lookup "fs" = none →
      newMigrationSink args env =
        Except.error { msg := "Missing fs secret", isWsCloseError := false }) ∧
    (∀ s1 s2, args.secrets.lookup "control" = some s1 →
      args.secrets.lookup "fs" = some s2 →
      (args.inst.typ = InstanceType.container →
        ((args.secrets.lookup "criu").isSome || args.live) = true →
        env.criuFound = true) →
      ∃ sink, newMigrationSink args env = Except.ok sink ∧
        sink.src.live = ((args.secrets.lookup "criu").isSome || args.live) ∧
        sink.src.criuSecret = ((args.secrets.lookup "criu").getD "") ∧
        sink.src.controlSecret = s1 ∧ sink.src.fsSecret = s2) := by
  refine ⟨?_, ?_, ?_⟩
  · intro hctl
    simp [newMigrationSink, hpull, hctl, Bind.bind, Except.bind]
  · intro s1 hctl hfsx
    simp [newMigrationSink, hpull, hctl, hfsx, Bind.bind, Except.bind]
  · intro s1 s2 hctl hfsx hpass
    refine ⟨{ src := { inst := some args.inst, controlSecret := s1, fsSecret := s2,
                       criuSecret := (args.secrets.lookup "criu").getD "",
                       live := ((args.secrets.lookup "criu").isSome || args.live),
                       instanceOnly := args.instanceOnly },
              dest := { instanceOnly := args.instanceOnly },
              url := args.url, push := false, refresh := args.refresh },
            ?_, rfl, rfl, rfl, rfl⟩
    by_cases hty : args.inst.typ = InstanceType.container
    · cases hflag : ((args.secrets.lookup "criu").isSome || args.live) with
      | true =>
        have hcf : env.criuFound = true := hpass hty hflag
        cases hcr : args.secrets.lookup "criu" with
        | none =>
          have hlv : args.live = true := by simpa [hcr] using hflag
          simp [newMigrationSink, hpull, hctl, hfsx, hty, hcf, hcr, hlv,
            Bind.bind, Except.bind, Pure.pure, Except.pure]
        | some v =>
          simp [newMigrationSink, hpull, hctl, hfsx, hty, hcf, hcr,
            Bind.bind, Except.bind, Pure.pure, Except.pure]
      | false =>
        have hcr : args.secrets.lookup "criu" = none := by
          cases hcrx : args.secrets.lookup "criu"
          · rfl
          · simp [hcrx] at hflag
        have hlv : args.live = false := by simpa [hcr] using hflag
        simp [newMigrationSink, hpull, hctl, hfsx, hty, hcr, hlv,
          Bind.bind, Except.bind, Pure.pure, Except.pure]
    · cases hcr : args.secrets.lookup "criu" <;>
        simp [newMigrationSink, hpull, hctl, hfsx, hty, hcr,
          Bind.bind, Except.bind, Pure.pure, Except.pure]

theorem sink_pull_secret_requirements_witness :
    ∃ sink, newMigrationSink pullVmArgs sinkEnvNoCriu = Except.ok sink ∧
      sink.src.live = ((pullVmArgs.secrets.lookup "criu").isSome || pullVmArgs.live) ∧
      sink.src.criuSecret = ((pullVmArgs.secrets.lookup "criu").getD "") ∧
      sink.src.controlSecret = "a" ∧ sink.src.fsSecret = "b" :=
  (sink_pull_secret_requirements pullVmArgs sinkEnvNoCriu rfl).2.2 "a" "b"
    (by decide) (by decide) (by decide)

/-- C10: a source construction that requests statefulness for an instance
that is not running succeeds with liveness false and no live-state
secret, and never consults the checkpoint-tool lookup or the third
secret generation — even for a container on a host without the tool. -/
theorem source_stateful_not_running_no_live
    (inst1 : Instance) (io ai : Bool) (env : SourceEnv) (cs fsx : String)
    (hrun : inst1.isRunning = false)
    (hcs : env.controlSecretGen = Except.ok cs)
    (hfs : env.fsSecretGen = Except.ok fsx) :
    newMigrationSource inst1 true io ai env =
      Except.ok ⟨{ inst := some inst1, controlSecret := cs, fsSecret := fsx,
                   criuSecret := "", controlConn := none, fsConn := none,
                   criuConn := none, live := false, instanceOnly := io,
                   allowInconsistent := ai }⟩ ∧
    (∀ b g, newMigrationSource inst1 true io ai
        { env with criuFound := b, criuSecretGen := g } =
      newMigrationSource inst1 true io ai env) := by
  constructor
  · simp [newMigrationSource, hcs, hfs, hrun,
      Bind.bind, Except.bind, Pure.pure, Except.pure]
  · intro b g
    simp [newMigrationSource, hcs, hfs, hrun,
      Bind.bind, Except.bind, Pure.pure, Except.pure]

theorem source_stateful_not_running_no_live_witness :
    newMigrationSource contStopped true false true srcEnvNoCriu =
      Except.ok ⟨{ inst := some contStopped, controlSecret := "c", fsSecret := "f",
                   criuSecret := "", controlConn := none, fsConn := none,
                   criuConn := none, live := false, instanceOnly := false,
                   allowInconsistent := true }⟩ ∧
    (∀ b g, newMigrationSource contStopped true false true
        { srcEnvNoCriu with criuFound := b, criuSecretGen := g } =
      newMigrationSource contStopped true false true srcEnvNoCriu) :=
  source_stateful_not_running_no_live contStopped false true srcEnvNoCriu "c" "f"
    rfl rfl rfl
